import Mathlib

/-!
Shallow embedding of the AScotM/port_scanner repository.

The repository holds two near-duplicate variants of a concurrent TCP port
scanner:
  * `src/scanner/scanner.py`   (functions `scan_port`, `port_scanner`,
    `export_to_json` and a `__main__` block without argument validation);
  * `src/scanner3/scanner3.py` (the same functions, `port_scanner` gaining a
    `timeout` parameter, and a `__main__` block that validates the arguments
    with `parser.error` before scanning).

The network is modelled by an environment `NetEnv`: for each port and timeout
it yields the outcome of `socket.connect_ex` (either an error-indicator
return code, `0` meaning success, or an exception that escaped to the outer
`except Exception` handler), and for each port the outcome of
`socket.getservbyport(port, "tcp")` (`some name` on success, `none` when the
lookup raised).  Python's `float` timeout is modelled as a rational number:
the code only passes the timeout through to the socket layer and never
computes with it.  Ports and the `connect_ex` return code are integers, as in
Python.  File writing, printing and `datetime.now()` are I/O at the program
boundary; `export_to_json` is modelled by the report value it constructs,
with the timestamp string passed in as a parameter.
-/

/-- Outcome of the guarded socket work inside `scan_port`'s outer `try`:
`connect_ex` returned an error indicator (`0` = connected), or an exception
with message `msg` escaped to the `except Exception as e` handler. -/
inductive ConnectOutcome where
  | retCode (code : Int)
  | exc (msg : String)
deriving DecidableEq

/-- The network environment a scan of one host runs against: the outcome of a
connect attempt for each `(port, timeout)` pair, and the service-name table
consulted by `socket.getservbyport` (`none` models a raised lookup error). -/
structure NetEnv where
  connect : Int → ℚ → ConnectOutcome
  getservbyport : Int → Option String

/-- The per-port result dictionary built by `scan_port`: keys `host`, `port`,
`status`, `service` are always present; the `error` key is present (`some`)
only when the outer exception handler ran. -/
structure PortResult where
  host : String
  port : Int
  status : String
  service : String
  error : Option String
deriving DecidableEq

/-- Python's `range(a, b)` over integers: `[a, a+1, ..., b-1]`, empty when
`b ≤ a`. -/
def pyRange (a b : Int) : List Int :=
  (List.range (b - a).toNat).map fun (i : Nat) => a + (i : Int)

/-- `scan_port` from `src/scanner/scanner.py` (lines 8-27).  The result dict
starts as `{host, port, status: "closed", service: "unknown"}`; when
`connect_ex` returns `0` the status becomes `"open"` and the service name is
filled in unless the lookup raises (bare `except: pass`); when an exception
escapes to the outer handler the `error` key is set to its message.  A
nonzero `connect_ex` return code leaves the initial dict untouched. -/
def scan_port (host : String) (port : Int) (timeout : ℚ) (env : NetEnv) : PortResult :=
  match env.connect port timeout with
  | ConnectOutcome.exc msg =>
      { host := host, port := port, status := "closed", service := "unknown",
        error := some msg }
  | ConnectOutcome.retCode code =>
      if code = 0 then
        { host := host, port := port, status := "open",
          service := (env.getservbyport port).getD "unknown", error := none }
      else
        { host := host, port := port, status := "closed", service := "unknown",
          error := none }

/-- `scan_port` from `src/scanner3/scanner3.py` (lines 9-28); the source text
is identical to the first variant's. -/
def scan_port3 (host : String) (port : Int) (timeout : ℚ) (env : NetEnv) : PortResult :=
  match env.connect port timeout with
  | ConnectOutcome.exc msg =>
      { host := host, port := port, status := "closed", service := "unknown",
        error := some msg }
  | ConnectOutcome.retCode code =>
      if code = 0 then
        { host := host, port := port, status := "open",
          service := (env.getservbyport port).getD "unknown", error := none }
      else
        { host := host, port := port, status := "closed", service := "unknown",
          error := none }

/-- `port_scanner` from `src/scanner/scanner.py` (lines 29-36): one future per
port in `range(start_port, end_port + 1)`, each running
`scan_port(host, port)` with the default timeout `1.0`; `future.result()` is
collected in submission order, so the returned list is the submission-order
list of probe results.  `max_threads` only sizes the worker pool and does not
affect the returned value. -/
def port_scanner (host : String) (start_port end_port : Int) (max_threads : Nat)
    (env : NetEnv) : List PortResult :=
  (pyRange start_port (end_port + 1)).map fun port => scan_port host port 1 env

/-- `port_scanner` from `src/scanner3/scanner3.py` (lines 30-37): as the first
variant, but the supplied `timeout` is forwarded to every `scan_port` call. -/
def port_scanner3 (host : String) (start_port end_port : Int) (max_threads : Nat)
    (timeout : ℚ) (env : NetEnv) : List PortResult :=
  (pyRange start_port (end_port + 1)).map fun port => scan_port3 host port timeout env

/-- The report dictionary serialized by `export_to_json` (identical in both
variants): `timestamp`, `host` and the untouched result list. -/
structure ScanReport where
  timestamp : String
  host : String
  scan_results : List PortResult
deriving DecidableEq

/-- `export_to_json` from `src/scanner/scanner.py` (lines 38-47), modelled by
the report value it builds and writes: `host` is `data[0]["host"]` when `data`
is non-empty, else the literal `"unknown"`; `scan_results` is `data` itself.
The timestamp (`datetime.now().isoformat()`) is passed in as a parameter. -/
def export_to_json (timestamp : String) (data : List PortResult) : ScanReport :=
  { timestamp := timestamp,
    host := match data with
      | [] => "unknown"
      | r :: _ => r.host,
    scan_results := data }

/-- Outcome of the `__main__` block of `src/scanner3/scanner3.py`:
`parser.error` prints a usage message and exits with status `2`, before any
scan; otherwise the scan runs and its results are exported. -/
inductive MainOutcome where
  | usageError (exitCode : Int) (msg : String)
  | scanned (results : List PortResult)
deriving DecidableEq

/-- Process exit status of a `MainOutcome` (a completed run exits `0`). -/
def MainOutcome.exitCode : MainOutcome → Int
  | MainOutcome.usageError c _ => c
  | MainOutcome.scanned _ => 0

/-- The scan results a `MainOutcome` produced, `none` when the run was
rejected before scanning. -/
def MainOutcome.scanResults : MainOutcome → Option (List PortResult)
  | MainOutcome.usageError _ _ => none
  | MainOutcome.scanned rs => some rs

/-- The `__main__` block of `src/scanner3/scanner3.py` (lines 50-77) after
argument parsing: port-range check, thread-count check, then
`socket.gethostbyname` (`resolvable` models whether it raises `gaierror`);
each failed check calls `parser.error`, which exits with status `2` before
any scan; otherwise `port_scanner` runs. -/
def main3 (host : String) (start_arg end_arg threads : Int) (timeout : ℚ)
    (resolvable : Bool) (env : NetEnv) : MainOutcome :=
  if start_arg < 1 ∨ end_arg > 65535 ∨ start_arg > end_arg then
    MainOutcome.usageError 2 "Invalid port range. Ports must be between 1-65535 and start <= end."
  else if threads < 1 ∨ threads > 1000 then
    MainOutcome.usageError 2 "Threads must be between 1 and 1000."
  else if resolvable = false then
    MainOutcome.usageError 2 ("Cannot resolve host " ++ host)
  else
    MainOutcome.scanned (port_scanner3 host start_arg end_arg threads.toNat timeout env)

/-! Operational model of the `ThreadPoolExecutor` interaction in
`port_scanner`.  The submitted futures are slots indexed by submission
position; a completion order (a permutation of the indices) fills each slot
with its task's value; the collection loop `for future in futures:
results.append(future.result())` then reads the slots in submission order,
blocking until each is filled. -/

/-- Slot contents after the tasks complete in the given `order`: starting from
all-empty slots, completing task `i` stores `tasks[i]?` in slot `i`. -/
def fillSlots {α : Type} (tasks : List α) (order : List Nat) : Nat → Option α :=
  order.foldl (fun slots i => Function.update slots i tasks[i]?) fun _ => none

/-- Read `count` slots in submission order; `none` as soon as a slot is still
empty (that future has not completed and `result()` would still block). -/
def collectSlots {α : Type} : List (Option α) → Option (List α)
  | [] => some []
  | none :: _ => none
  | some a :: rest => (collectSlots rest).map fun l => a :: l

/-- The collection loop of `port_scanner`: read the futures' slots in
submission order. -/
def collect {α : Type} (count : Nat) (slots : Nat → Option α) : Option (List α) :=
  collectSlots ((List.range count).map slots)

/-! Modelled from the spec: the semantics of `ThreadPoolExecutor(max_workers
= max_threads)` itself is standard-library code, not part of this
repository's sources.  Following the spec's concurrency model — "a fixed-size
worker pool of parallel execution units; each unit executes one Prober call
to completion, then picks up the next pending port" — the pool is a
transition system counting pending, in-flight and finished probes; a pending
probe may start only while fewer than `maxw` probes are in flight. -/

/-- Pool state: probes not yet started, probes currently executing, probes
finished. -/
structure PoolState where
  pending : Nat
  inflight : Nat
  done : Nat
deriving DecidableEq

/-- Modelled from the spec: one scheduling step of the bounded worker pool —
a worker starts a pending probe only while strictly fewer than `maxw` probes
are in flight, or an in-flight probe finishes. -/
inductive PoolStep (maxw : Nat) : PoolState → PoolState → Prop where
  | start (s : PoolState) (h1 : 0 < s.pending) (h2 : s.inflight < maxw) :
      PoolStep maxw s ⟨s.pending - 1, s.inflight + 1, s.done⟩
  | finish (s : PoolState) (h : 0 < s.inflight) :
      PoolStep maxw s ⟨s.pending, s.inflight - 1, s.done + 1⟩

/-- Initial pool state of a scan: one pending probe per port of
`range(start_port, end_port + 1)`, nothing running yet. -/
def initPool (start_port end_port : Int) : PoolState :=
  ⟨(pyRange start_port (end_port + 1)).length, 0, 0⟩

/-! Concrete environments used by the witnesses and the counterexample. -/

/-- Demo network: port 2 accepts the connection, every other port refuses it
(`connect_ex` returns `111`, `ECONNREFUSED`); no service name resolves. -/
def envDemo : NetEnv where
  connect := fun p _ => if p = 2 then ConnectOutcome.retCode 0 else ConnectOutcome.retCode 111
  getservbyport := fun _ => none

/-- Demo network: the probe of port 2 raises an exception with message
`"boom"`; every other port connects; port 80 resolves to `"http"`. -/
def envExc : NetEnv where
  connect := fun p _ => if p = 2 then ConnectOutcome.exc "boom" else ConnectOutcome.retCode 0
  getservbyport := fun p => if p = 80 then some "http" else none

/-- Demo network: every connect attempt is refused — `connect_ex` returns
`111` (`ECONNREFUSED`), the error-indicator path with no exception raised. -/
def envRefused : NetEnv where
  connect := fun _ _ => ConnectOutcome.retCode 111
  getservbyport := fun _ => none

/-! Helper lemmas about the embedding, shared by the claim theorems. -/

theorem scan_port_port (host : String) (p : Int) (t : ℚ) (env : NetEnv) :
    (scan_port host p t env).port = p := by
  unfold scan_port
  cases env.connect p t with
  | exc msg => rfl
  | retCode code =>
      by_cases hc : code = 0 <;> simp [hc]

theorem scan_port_status (host : String) (p : Int) (t : ℚ) (env : NetEnv) :
    (scan_port host p t env).status = "open" ∨ (scan_port host p t env).status = "closed" := by
  unfold scan_port
  cases env.connect p t with
  | exc msg => right; rfl
  | retCode code =>
      by_cases hc : code = 0
      · left; simp [hc]
      · right; simp [hc]

theorem pyRange_length (a b : Int) : (pyRange a b).length = (b - a).toNat := by
  unfold pyRange
  rw [List.length_map, List.length_range]

theorem mem_pyRange {a b p : Int} : p ∈ pyRange a b ↔ a ≤ p ∧ p < b := by
  unfold pyRange
  simp only [List.mem_map, List.mem_range]
  constructor
  · rintro ⟨i, hi, rfl⟩
    omega
  · rintro ⟨h1, h2⟩
    exact ⟨(p - a).toNat, by omega, by omega⟩

theorem pyRange_nodup (a b : Int) : (pyRange a b).Nodup := by
  unfold pyRange
  refine List.Nodup.map ?_ (List.nodup_range _)
  intro i j hij
  simp only at hij
  omega

theorem port_scanner_length (host : String) (s e : Int) (m : Nat) (env : NetEnv)
    (h : s ≤ e) :
    ((port_scanner host s e m env).length : Int) = e - s + 1 := by
  unfold port_scanner
  rw [List.length_map, pyRange_length]
  omega

theorem port_scanner_ports (host : String) (s e : Int) (m : Nat) (env : NetEnv) :
    (port_scanner host s e m env).map PortResult.port = pyRange s (e + 1) := by
  unfold port_scanner
  rw [List.map_map]
  have hfun : PortResult.port ∘ (fun port => scan_port host port 1 env) = id := by
    funext p
    simp [scan_port_port]
  rw [hfun, List.map_id]

theorem foldl_update_not_mem {α : Type} (tasks : List α) (i : Nat) :
    ∀ (order : List Nat) (init : Nat → Option α), i ∉ order →
      order.foldl (fun slots j => Function.update slots j tasks[j]?) init i = init i := by
  intro order
  induction order with
  | nil =>
      intro init _
      rfl
  | cons a rest ih =>
      intro init h
      have h1 : i ≠ a := by
        intro hh
        exact h (by simp [hh])
      have h2 : i ∉ rest := by
        intro hh
        exact h (by simp [hh])
      simp only [List.foldl_cons]
      rw [ih _ h2, Function.update_noteq h1]

theorem foldl_update_mem {α : Type} (tasks : List α) (i : Nat) :
    ∀ (order : List Nat) (init : Nat → Option α), i ∈ order →
      order.foldl (fun slots j => Function.update slots j tasks[j]?) init i = tasks[i]? := by
  intro order
  induction order with
  | nil =>
      intro init h
      exact absurd h (List.not_mem_nil i)
  | cons a rest ih =>
      intro init h
      by_cases hr : i ∈ rest
      · simp only [List.foldl_cons]
        exact ih _ hr
      · have hia : i = a := by
          rcases List.mem_cons.1 h with h1 | h1
          · exact h1
          · exact absurd h1 hr
        simp only [List.foldl_cons]
        rw [foldl_update_not_mem tasks i rest _ hr]
        subst hia
        exact Function.update_same i tasks[i]? init

theorem fillSlots_mem {α : Type} (tasks : List α) (order : List Nat) (i : Nat)
    (h : i ∈ order) : fillSlots tasks order i = tasks[i]? :=
  foldl_update_mem tasks i order _ h

theorem collectSlots_range' {α : Type} (f : Nat → Option α) :
    ∀ (ts : List α) (k : Nat), (∀ i, i < ts.length → f (k + i) = ts[i]?) →
      collectSlots ((List.range' k ts.length).map f) = some ts := by
  intro ts
  induction ts with
  | nil =>
      intro k _
      rfl
  | cons t rest ih =>
      intro k h
      have h0 : f k = some t := by
        have hk := h 0 (Nat.succ_pos _)
        simpa using hk
      have hrest : ∀ i, i < rest.length → f (k + 1 + i) = rest[i]? := by
        intro i hi
        have hi1 := h (i + 1) (by simp only [List.length_cons]; omega)
        rw [show k + (i + 1) = k + 1 + i by omega] at hi1
        simpa using hi1
      show collectSlots ((List.range' k (rest.length + 1)).map f) = some (t :: rest)
      rw [List.range'_succ]
      simp only [List.map_cons]
      rw [h0]
      simp only [collectSlots]
      rw [ih (k + 1) hrest]
      rfl

/-! The claim theorems. -/

/-- C1: for every host and every port range with `start_port ≤ end_port`,
`port_scanner` returns a list with exactly `end_port - start_port + 1`
entries, containing exactly one `PortResult` for each integer port in
`[start_port, end_port]` inclusive, with no duplicate and no omitted port. -/
theorem port_scanner_covers_range (host : String) (s e : Int) (m : Nat) (env : NetEnv)
    (h : s ≤ e) (p : Int) :
    ((port_scanner host s e m env).length : Int) = e - s + 1 ∧
    ((port_scanner host s e m env).map PortResult.port).Nodup ∧
    (p ∈ (port_scanner host s e m env).map PortResult.port ↔ s ≤ p ∧ p ≤ e) := by
  refine ⟨port_scanner_length host s e m env h, ?_, ?_⟩
  · rw [port_scanner_ports]
    exact pyRange_nodup s (e + 1)
  · rw [port_scanner_ports, mem_pyRange]
    omega

theorem port_scanner_covers_range_witness :
    (1 : Int) ≤ 3 ∧
    (((port_scanner "127.0.0.1" 1 3 4 envDemo).length : Int) = 3 - 1 + 1 ∧
     ((port_scanner "127.0.0.1" 1 3 4 envDemo).map PortResult.port).Nodup ∧
     ((2 : Int) ∈ (port_scanner "127.0.0.1" 1 3 4 envDemo).map PortResult.port ↔
        (1 : Int) ≤ 2 ∧ (2 : Int) ≤ 3)) :=
  ⟨by decide, port_scanner_covers_range "127.0.0.1" 1 3 4 envDemo (by decide) 2⟩

/-- C2: the returned `PortResult` has `status = "open"` if and only if the
connect attempt returned the success indicator `0`; every other outcome
yields `status = "closed"`. -/
theorem scan_port_open_iff_connect_success (host : String) (p : Int) (t : ℚ) (env : NetEnv) :
    ((scan_port host p t env).status = "open" ↔
        env.connect p t = ConnectOutcome.retCode 0) ∧
    ((scan_port host p t env).status = "open" ∨ (scan_port host p t env).status = "closed") := by
  refine ⟨?_, scan_port_status host p t env⟩
  unfold scan_port
  cases h : env.connect p t with
  | exc msg => simp
  | retCode code =>
      by_cases hc : code = 0 <;> simp [hc]

/-- C3: the sequence returned by `port_scanner` lists results in ascending
port number (the submission order), regardless of the order in which the
concurrent probes complete: whenever the completion order is any permutation
of the submitted futures' indices, reading the futures in submission order
yields exactly the submission-order result list. -/
theorem port_scanner_order_independent (host : String) (s e : Int) (m : Nat) (env : NetEnv)
    (order : List Nat)
    (horder : List.Perm order (List.range (port_scanner host s e m env).length)) :
    collect (port_scanner host s e m env).length
        (fillSlots (port_scanner host s e m env) order) =
      some (port_scanner host s e m env) := by
  unfold collect
  rw [List.range_eq_range']
  apply collectSlots_range'
  intro i hi
  have hmem : i ∈ order := horder.mem_iff.2 (List.mem_range.2 hi)
  rw [Nat.zero_add]
  exact fillSlots_mem _ _ _ hmem

theorem port_scanner_order_independent_witness :
    List.Perm [2, 0, 1] (List.range (port_scanner "127.0.0.1" 1 3 4 envDemo).length) ∧
    collect (port_scanner "127.0.0.1" 1 3 4 envDemo).length
        (fillSlots (port_scanner "127.0.0.1" 1 3 4 envDemo) [2, 0, 1]) =
      some (port_scanner "127.0.0.1" 1 3 4 envDemo) :=
  ⟨by decide, port_scanner_order_independent "127.0.0.1" 1 3 4 envDemo [2, 0, 1] (by decide)⟩

/-- C4 counterexample: a connect attempt that fails with `connect_ex`
returning the error indicator `111` (`ECONNREFUSED`, a failed connect that
raises no exception) yields `status = "closed"` but leaves the `error` field
unset, refuting the claim that every failing connect attempt records the
failure's message in `error`. -/
theorem scan_port_refused_leaves_error_unset :
    envRefused.connect 80 1 = ConnectOutcome.retCode 111 ∧
    ConnectOutcome.retCode (111 : Int) ≠ ConnectOutcome.retCode 0 ∧
    (scan_port "127.0.0.1" 80 1 envRefused).status = "closed" ∧
    (scan_port "127.0.0.1" 80 1 envRefused).error = none :=
  ⟨rfl, by decide, rfl, rfl⟩

/-- C4 (amended): every failing connect attempt yields `status = "closed"`;
the `error` field contains the failure's message exactly when the failure
surfaced as an exception caught by the outer handler, while a failure that
`connect_ex` reports as a nonzero return code leaves `error` unset. -/
theorem scan_port_closed_error_cases (host : String) (p : Int) (t : ℚ) (env : NetEnv) :
    (∀ msg, env.connect p t = ConnectOutcome.exc msg →
      (scan_port host p t env).status = "closed" ∧
      (scan_port host p t env).error = some msg) ∧
    (∀ code, code ≠ 0 → env.connect p t = ConnectOutcome.retCode code →
      (scan_port host p t env).status = "closed" ∧
      (scan_port host p t env).error = none) := by
  constructor
  · intro msg hmsg
    unfold scan_port
    rw [hmsg]
    exact ⟨rfl, rfl⟩
  · intro code hcode hret
    unfold scan_port
    rw [hret]
    simp [hcode]

theorem scan_port_closed_error_cases_witness :
    envExc.connect 2 1 = ConnectOutcome.exc "boom" ∧
    ((scan_port "127.0.0.1" 2 1 envExc).status = "closed" ∧
     (scan_port "127.0.0.1" 2 1 envExc).error = some "boom") :=
  ⟨by decide, (scan_port_closed_error_cases "127.0.0.1" 2 1 envExc).1 "boom" (by decide)⟩

/-- C5: an exception inside a single probe is folded into that port's `error`
field rather than propagated: the scan still returns one well-formed result
per port of the range, and the failing port's result carries the exception's
message. -/
theorem scan_port_failure_isolation (host : String) (s e : Int) (m : Nat) (env : NetEnv)
    (q : Int) (msg : String) (hq1 : s ≤ q) (hq2 : q ≤ e)
    (hexc : env.connect q 1 = ConnectOutcome.exc msg) :
    ((port_scanner host s e m env).length : Int) = e - s + 1 ∧
    (∀ r ∈ port_scanner host s e m env, r.status = "open" ∨ r.status = "closed") ∧
    (∀ r ∈ port_scanner host s e m env, r.port = q → r.error = some msg) := by
  refine ⟨port_scanner_length host s e m env (le_trans hq1 hq2), ?_, ?_⟩
  · intro r hr
    unfold port_scanner at hr
    rcases List.mem_map.1 hr with ⟨p, _, rfl⟩
    exact scan_port_status host p 1 env
  · intro r hr hrq
    unfold port_scanner at hr
    rcases List.mem_map.1 hr with ⟨p, _, rfl⟩
    rw [scan_port_port] at hrq
    subst hrq
    unfold scan_port
    rw [hexc]

theorem scan_port_failure_isolation_witness :
    (1 : Int) ≤ 2 ∧ (2 : Int) ≤ 3 ∧
    (((port_scanner "127.0.0.1" 1 3 4 envExc).length : Int) = 3 - 1 + 1 ∧
     (∀ r ∈ port_scanner "127.0.0.1" 1 3 4 envExc,
        r.status = "open" ∨ r.status = "closed") ∧
     (∀ r ∈ port_scanner "127.0.0.1" 1 3 4 envExc, r.port = 2 → r.error = some "boom")) :=
  ⟨by decide, by decide,
    scan_port_failure_isolation "127.0.0.1" 1 3 4 envExc 2 "boom"
      (by decide) (by decide) (by decide)⟩

/-- C6: when the connect succeeds and the service-name lookup fails, the
result still has `status = "open"`, keeps the default `service = "unknown"`,
and surfaces no error. -/
theorem scan_port_service_failure_swallowed (host : String) (p : Int) (t : ℚ) (env : NetEnv)
    (hopen : env.connect p t = ConnectOutcome.retCode 0)
    (hserv : env.getservbyport p = none) :
    (scan_port host p t env).status = "open" ∧
    (scan_port host p t env).service = "unknown" ∧
    (scan_port host p t env).error = none := by
  unfold scan_port
  rw [hopen]
  simp [hserv]

theorem scan_port_service_failure_swallowed_witness :
    envDemo.connect 2 1 = ConnectOutcome.retCode 0 ∧ envDemo.getservbyport 2 = none ∧
    ((scan_port "127.0.0.1" 2 1 envDemo).status = "open" ∧
     (scan_port "127.0.0.1" 2 1 envDemo).service = "unknown" ∧
     (scan_port "127.0.0.1" 2 1 envDemo).error = none) :=
  ⟨by decide, rfl, scan_port_service_failure_swallowed "127.0.0.1" 2 1 envDemo (by decide) rfl⟩

/-- C7: the assembled report's `host` field equals the host of the first
result when the result list is non-empty and the literal `"unknown"` when it
is empty, and the results pass into `scan_results` unmodified. -/
theorem export_to_json_assembly (ts : String) (data : List PortResult)
    (r : PortResult) (rest : List PortResult) (hdata : data = r :: rest) :
    (export_to_json ts data).host = r.host ∧
    (export_to_json ts data).scan_results = data ∧
    (export_to_json ts []).host = "unknown" ∧
    (export_to_json ts []).scan_results = ([] : List PortResult) := by
  subst hdata
  exact ⟨rfl, rfl, rfl, rfl⟩

/-- A concrete result used by the report-assembly witness. -/
def rDemo : PortResult :=
  { host := "127.0.0.1", port := 80, status := "open", service := "http", error := none }

theorem export_to_json_assembly_witness :
    ([rDemo] = rDemo :: []) ∧
    ((export_to_json "2026-10-12T00:00:00" [rDemo]).host = rDemo.host ∧
     (export_to_json "2026-10-12T00:00:00" [rDemo]).scan_results = [rDemo] ∧
     (export_to_json "2026-10-12T00:00:00" []).host = "unknown" ∧
     (export_to_json "2026-10-12T00:00:00" []).scan_results = ([] : List PortResult)) :=
  ⟨rfl, export_to_json_assembly "2026-10-12T00:00:00" [rDemo] rDemo [] rfl⟩

/-- C8: in the stricter variant, any argument vector with `start < 1`, or
`end > 65535`, or `start > end`, or `threads` outside `[1, 1000]`, or an
unresolvable host is rejected with a usage error and a non-zero exit status
before any scan runs. -/
theorem main3_rejects_invalid_args (host : String) (start_arg end_arg threads : Int)
    (timeout : ℚ) (resolvable : Bool) (env : NetEnv)
    (hbad : start_arg < 1 ∨ end_arg > 65535 ∨ start_arg > end_arg ∨
            threads < 1 ∨ threads > 1000 ∨ resolvable = false) :
    (main3 host start_arg end_arg threads timeout resolvable env).exitCode ≠ 0 ∧
    (main3 host start_arg end_arg threads timeout resolvable env).scanResults = none := by
  unfold main3
  split
  · exact ⟨by show (2 : Int) ≠ 0; decide, rfl⟩
  · split
    · exact ⟨by show (2 : Int) ≠ 0; decide, rfl⟩
    · split
      · exact ⟨by show (2 : Int) ≠ 0; decide, rfl⟩
      · exfalso
        rename_i h1 h2 h3
        rcases hbad with h | h | h | h | h | h
        · exact h1 (Or.inl h)
        · exact h1 (Or.inr (Or.inl h))
        · exact h1 (Or.inr (Or.inr h))
        · exact h2 (Or.inl h)
        · exact h2 (Or.inr h)
        · exact h3 h

theorem main3_rejects_invalid_args_witness :
    ((2000 : Int) < 1 ∨ (1000 : Int) > 65535 ∨ (2000 : Int) > 1000 ∨
     (50 : Int) < 1 ∨ (50 : Int) > 1000 ∨ true = false) ∧
    ((main3 "example.com" 2000 1000 50 1 true envDemo).exitCode ≠ 0 ∧
     (main3 "example.com" 2000 1000 50 1 true envDemo).scanResults = none) :=
  ⟨by decide, main3_rejects_invalid_args "example.com" 2000 1000 50 1 true envDemo (by decide)⟩

theorem poolStep_preserves_bound {maxw : Nat} {a b : PoolState}
    (hstep : PoolStep maxw a b) (ha : a.inflight ≤ maxw) : b.inflight ≤ maxw := by
  cases hstep with
  | start h1 h2 => exact h2
  | finish h =>
      show a.inflight - 1 ≤ maxw
      omega

/-- C9: along every schedule of the bounded worker pool started for a scan,
at no reachable state does the number of concurrently executing probes exceed
the configured worker cap. -/
theorem pool_inflight_bounded (maxw : Nat) (start_port end_port : Int) (st : PoolState)
    (hreach : Relation.ReflTransGen (PoolStep maxw) (initPool start_port end_port) st) :
    st.inflight ≤ maxw := by
  induction hreach with
  | refl => exact Nat.zero_le maxw
  | tail hab hstep ih => exact poolStep_preserves_bound hstep ih

theorem pool_inflight_bounded_witness :
    (PoolState.mk 2 1 0).inflight ≤ 2 :=
  pool_inflight_bounded 2 1 3 ⟨2, 1, 0⟩ (by
    have hinit : initPool 1 3 = ⟨3, 0, 0⟩ := by decide
    rw [hinit]
    exact Relation.ReflTransGen.single (PoolStep.start ⟨3, 0, 0⟩ (by decide) (by decide)))

/-- C10: the two variants' scan routines are equivalent up to the timeout
parameter: `scan_port` is the same function in both variants, and variant 1's
`port_scanner` produces the same result list as variant 2's `port_scanner`
invoked with `timeout = 1.0`, given identical probe outcomes. -/
theorem variants_equivalent (host : String) (s e : Int) (m : Nat) (env : NetEnv) :
    scan_port3 = scan_port ∧
    port_scanner host s e m env = port_scanner3 host s e m 1 env :=
  ⟨rfl, rfl⟩
